import Mathlib

/-!
Verification of the FastAPIwee schema-derivation engine and CRUD layer.

The definitions below are a shallow embedding of the repository's code:
`fastapiwee/pwpd.py` (field translation, schema synthesis, memoization)
and `fastapiwee/crud/_base.py`, `crud/views.py`, `crud/exceptions.py`
(update semantics, not-found handler).  Machine-level details that Python
leaves to the runtime (the seeded string hash used by `letter_hash`) are
taken as explicit function parameters.
-/

namespace Fastapiwee

/-- Values that can appear as peewee field defaults, request-body values and
namespace attribute values. -/
inductive PyVal where
  | int (n : Int)
  | str (s : String)
  | bool (b : Bool)
deriving DecidableEq

/-- Scalar pydantic target types of `_FieldTranslator.FIELDS_MAPPING`
(int, float, bool) together with the fall-through default `str`. -/
inductive PdScalar where
  | int
  | float
  | bool
  | str
deriving DecidableEq

/-- The semantic type of a synthesized schema attribute: a scalar, an
`Optional[...]` wrapper, the derived schema of a related model
(`PwPdModel.make_serializer(rel_model)`), or a list of derived schemas
(backref nesting, `List[PwPdModel.make_serializer(model)]`). -/
inductive PdType where
  | scalar (s : PdScalar)
  | optional (t : PdType)
  | nested (relModel : String)
  | listNested (relModel : String)
deriving DecidableEq

/-- Peewee field classes appearing in the repository and its tests, plus the
common peewee field classes reachable through them. -/
inductive PwFieldClass where
  | AutoField
  | BigAutoField
  | IntegerField
  | BigIntegerField
  | SmallIntegerField
  | FloatField
  | DoubleField
  | DecimalField
  | BooleanField
  | CharField
  | TextField
  | DateTimeField
  | DateField
  | ForeignKeyField
  | Field
deriving DecidableEq

/-- Python method resolution order of each peewee field class, restricted to
field classes (the trailing `object` is irrelevant to the mapping walk).
This is what `field.__class__.__mro__` iterates over in
`_FieldTranslator.pd_type`. -/
def mro : PwFieldClass → List PwFieldClass
  | .AutoField => [.AutoField, .IntegerField, .Field]
  | .BigAutoField => [.BigAutoField, .AutoField, .IntegerField, .Field]
  | .IntegerField => [.IntegerField, .Field]
  | .BigIntegerField => [.BigIntegerField, .IntegerField, .Field]
  | .SmallIntegerField => [.SmallIntegerField, .IntegerField, .Field]
  | .FloatField => [.FloatField, .Field]
  | .DoubleField => [.DoubleField, .FloatField, .Field]
  | .DecimalField => [.DecimalField, .Field]
  | .BooleanField => [.BooleanField, .Field]
  | .CharField => [.CharField, .Field]
  | .TextField => [.TextField, .Field]
  | .DateTimeField => [.DateTimeField, .Field]
  | .DateField => [.DateField, .Field]
  | .ForeignKeyField => [.ForeignKeyField, .Field]
  | .Field => [.Field]

/-- The `_FieldTranslator.FIELDS_MAPPING` table:
IntegerField to int, FloatField to float, BooleanField to bool. -/
def fieldsMapping : PwFieldClass → Option PdScalar
  | .IntegerField => some .int
  | .FloatField => some .float
  | .BooleanField => some .bool
  | _ => none

/-- The for/else walk in `_FieldTranslator.pd_type`: the first ancestor of
the field class (in mro order) with an entry in `FIELDS_MAPPING` gives the
scalar type; when no ancestor matches, the default is `str`. -/
def scalarOf (c : PwFieldClass) : PdScalar :=
  match (mro c).findSome? fieldsMapping with
  | some t => t
  | none => .str

/-- A peewee field descriptor as consumed by the translator and the
metaclass: name, class, primary-key flag, nullability, default value, and
for foreign keys the related model's name together with the class of the
referenced column (`rel_field`). -/
structure PwField where
  name : String
  cls : PwFieldClass
  primaryKey : Bool
  null : Bool
  dflt : Option PyVal
  fk : Option (String × PwFieldClass)
deriving DecidableEq

/-- The property `_FieldTranslator.is_required`:
`self.field.primary_key or (not self.field.null)`. -/
def isRequired (f : PwField) : Bool :=
  f.primaryKey || !f.null

/-- The property `_FieldTranslator.pd_type`.  A nested foreign key returns
the related model's derived schema immediately (no optional wrapping); an
un-nested foreign key continues with the referenced column
(`field = self.field.rel_field`); then the mro walk produces the scalar
and the type is wrapped `Optional` when the field is not required or the
all-optional policy flag is set. -/
def pdTypeOf (f : PwField) (nestFk allOptional : Bool) : PdType :=
  match f.fk with
  | some (relModel, relCls) =>
    if nestFk then
      .nested relModel
    else
      let base := PdType.scalar (scalarOf relCls)
      if !(isRequired f) || allOptional then .optional base else base
  | none =>
    let base := PdType.scalar (scalarOf f.cls)
    if !(isRequired f) || allOptional then .optional base else base

/-- Whether a derived type is marked optional (wrapped `Optional[...]`). -/
def derivedOptional : PdType → Bool
  | .optional _ => true
  | _ => false

/-- Strip `Optional` wrappers from a derived type. -/
def stripOpt : PdType → PdType
  | .optional t => stripOpt t
  | t => t

/-- A peewee model as the metaclass reads it: its class name
(`model.__name__`), `model._meta.fields` in declaration order, and
`model._meta.backrefs` as pairs of backref name and related model name. -/
structure PwModel where
  name : String
  fields : List PwField
  backrefs : List (String × String)
deriving DecidableEq

/-- The policy values read from the schema `Config` in `PwPdMeta.__new__`:
`pw_fields` is `none` when the config does not declare the attribute (the
`getattr` default is then used), the rest default as in the code. -/
structure Policy where
  pw_fields : Option (List String) := none
  pw_exclude : List String := []
  pw_exclude_pk : Bool := false
  pw_nest_fk : Bool := false
  pw_nest_backrefs : Bool := false
  pw_all_optional : Bool := false
deriving DecidableEq

/-- Manually pre-declared attributes on the schema class body: plain
namespace values and entries of `__annotations__`. -/
structure NS where
  vals : List (String × PyVal)
  anns : List (String × PdType)
deriving DecidableEq

/-- Boolean membership of a name in a name list (Python `in` on a set of
strings). -/
def hasName (l : List String) (x : String) : Bool :=
  l.any (fun y => y == x)

/-- The default for the `pw_fields` config value: all model field names
together with all backref names
(`set(pw_model._meta.fields.keys()) | set(f.backref for f in ...backrefs)`). -/
def defaultFieldNames (m : PwModel) : List String :=
  m.fields.map (fun f => f.name) ++ m.backrefs.map Prod.fst

/-- The set `allowed_fields = pw_fields - pw_exclude` of `PwPdMeta.__new__`,
where `pw_fields` is the config's declared list when present and otherwise
the default of all field and backref names. -/
def allowedFields (m : PwModel) (p : Policy) : List String :=
  (p.pw_fields.getD (defaultFieldNames m)).filter (fun n => !(hasName p.pw_exclude n))

/-- Modelled from the spec's words, for comparison with `allowedFields`
(the code's rule): "allowed field set = (policy.fields UNION
default-all-fields-and-backrefs) MINUS policy.excluded", i.e. a declared
field list is unioned with the default set instead of replacing it. -/
def allowedFieldsSpecVersion (m : PwModel) (p : Policy) : List String :=
  (p.pw_fields.getD [] ++ defaultFieldNames m).filter (fun n => !(hasName p.pw_exclude n))

/-- All names manually declared on the class body:
`name in namespace or name in namespace.get('__annotations__', {})`. -/
def nsNames (ns : NS) : List String :=
  ns.vals.map Prod.fst ++ ns.anns.map Prod.fst

/-- Negation of the skip condition in the field-collection loop of
`PwPdMeta.__new__`: a field survives unless its name is not allowed, or it
is already manually declared, or it is the primary key under
`pw_exclude_pk`. -/
def survives (p : Policy) (allowed : List String) (ns : NS) (f : PwField) : Bool :=
  !(!(hasName allowed f.name) || hasName (nsNames ns) f.name || (p.pw_exclude_pk && f.primaryKey))

/-- The attribute name a surviving field gets: an un-nested foreign key is
renamed `name + '_id'`, every other field keeps its name. -/
def outNameOf (p : Policy) (f : PwField) : String :=
  if f.fk.isSome && !p.pw_nest_fk then f.name ++ "_id" else f.name

/-- One synthesized attribute: its final name, the value assigned in the new
namespace (the field default, when the entry comes from a translator) and
its annotation. -/
structure SynthEntry where
  name : String
  dflt : Option PyVal
  ann : PdType
deriving DecidableEq

/-- The entry built for one surviving model field (the `_FieldTranslator`
stored in `fields[name]`, later unpacked into default value and
annotation). -/
def mkEntry (p : Policy) (f : PwField) : SynthEntry :=
  { name := outNameOf p f
  , dflt := f.dflt
  , ann := pdTypeOf f p.pw_nest_fk p.pw_all_optional }

/-- The full ordered `fields` dict of `PwPdMeta.__new__`: surviving model
fields in declaration order, then (under `pw_nest._backrefs`) one
list-of-derived-schema entry per allowed backref. -/
def synthEntries (m : PwModel) (p : Policy) (ns : NS) : List SynthEntry :=
  (m.fields.filter (survives p (allowedFields m p) ns)).map (mkEntry p)
    ++ (if p.pw_nest_backrefs then
          m.backrefs.filterMap (fun br =>
            if hasName (allowedFields m p) br.1 then
              some { name := br.1, dflt := none, ann := PdType.listNested br.2 }
            else
              none)
        else
          [])

/-- The value part of the new namespace: `namespace_new[name] = value` is
assigned exactly when the entry's default value is not `None`. -/
def valsOf (l : List SynthEntry) : List (String × PyVal) :=
  l.filterMap (fun e => e.dflt.map (fun v => (e.name, v)))

/-- Synthesized namespace values of a model under a policy. -/
def synthVals (m : PwModel) (p : Policy) (ns : NS) : List (String × PyVal) :=
  valsOf (synthEntries m p ns)

/-- Synthesized `__annotations__`: every entry contributes its annotation. -/
def synthAnns (m : PwModel) (p : Policy) (ns : NS) : List (String × PdType) :=
  (synthEntries m p ns).map (fun e => (e.name, e.ann))

/-- Python dict lookup on an association list (first binding wins, as in a
dict, whose keys are unique). -/
def getVal {α : Type} : List (String × α) → String → Option α
  | [], _ => none
  | (k2, v) :: rest, k => if k2 = k then some v else getVal rest k

/-- Python dict item assignment `d[k] = v`: replace the value at an existing
key in place, or append the new binding. -/
def setKey {α : Type} : List (String × α) → String → α → List (String × α)
  | [], k, v => [(k, v)]
  | (k2, v2) :: rest, k, v =>
    if k2 = k then (k2, v) :: rest else (k2, v2) :: setKey rest k v

/-- One level of `deep_update(d, u)` (and equally of Python `dict.update`
and the setattr loop of `BaseWriteFastAPIView.update`): assign every
binding of `u` into `d` in order. -/
def updAssoc {α : Type} : List (String × α) → List (String × α) → List (String × α)
  | d, [] => d
  | d, (k, v) :: rest => updAssoc (setKey d k v) rest

/-- Final namespace values after
`namespace_new = deep_update(namespace_new, namespace)`: manual class-body
values are assigned over the synthesized ones. -/
def finalVals (m : PwModel) (p : Policy) (ns : NS) : List (String × PyVal) :=
  updAssoc (synthVals m p ns) ns.vals

/-- Final `__annotations__` after `deep_update`: the manual annotations dict
is a Mapping, so `deep_update` merges it key-wise into the synthesized
annotations, manual entries winning. -/
def finalAnns (m : PwModel) (p : Policy) (ns : NS) : List (String × PdType) :=
  updAssoc (synthAnns m p ns) ns.anns

/-- The policy carried by `PwPdModel` itself (no `pw_*` config values). -/
def defaultPolicy : Policy := {}

/-- The policy of `PwPdWriteModel`: `pw_exclude_pk = True`,
`pw_nest_fk = False`, `pw_nest_backrefs = False`. -/
def writePolicy : Policy :=
  { pw_exclude_pk := true }

/-- The policy of `PwPdPartUpdateModel`: the write policy plus
`pw_all_optional = True`. -/
def partUpdatePolicy : Policy :=
  { pw_exclude_pk := true, pw_all_optional := true }

/-- The English alphabet table `string.ascii_letters` used by
`letter_hash` (52 letters, lowercase first). -/
def asciiLetters : List Char :=
  "abcdefghijklmnopqrstuvwxyzABCDEFGHIJKLMNOPQRSTUVWXYZ".toList

/-- Indexing `string.ascii_letters[n]` as a one-character string. -/
def letterAt (n : Nat) : String :=
  String.singleton (asciiLetters.getD n ('a'))

/-- The loop body of `letter_hash` over the decimal digit characters of the
hash value: digits are consumed two at a time; a two-digit number within
the alphabet range becomes one letter, a larger one becomes two letters
indexed by the single digits; a trailing lone digit becomes one letter. -/
def letterHashDigits : List Char → String
  | [] => ""
  | [c] => letterAt (c.toNat - 48)
  | c1 :: c2 :: rest =>
    let num := (c1.toNat - 48) * 10 + (c2.toNat - 48)
    if num > asciiLetters.length - 1 then
      letterAt (c1.toNat - 48) ++ letterAt (c2.toNat - 48) ++ letterHashDigits rest
    else
      letterAt num ++ letterHashDigits rest

/-- The function `letter_hash` applied to a precomputed Python hash value:
`str(hash(obj))` with a leading minus sign stripped is exactly the decimal
digit string of the absolute value. -/
def letter_hash (h : Int) : String :=
  letterHashDigits (toString h.natAbs).toList

/-- Values an ad hoc config override can carry in `make_serializer`
keyword arguments: booleans, name sets, or a model reference. -/
inductive CfgVal where
  | b (x : Bool)
  | strs (l : List String)
  | model (name : String)
deriving DecidableEq

/-- Textual form of one config value, standing in for Python `repr`.  The
exact characters are immaterial: the result is only fed to the abstract
Python string hash. -/
def reprCfgVal : CfgVal → String
  | .b true => "True"
  | .b false => "False"
  | .strs l => String.intercalate ", " l
  | .model n => "Model " ++ n

/-- Textual form of the `config_values` keyword dict, standing in for
`repr(config_values)`: deterministic in the dict contents. -/
def reprConfig (cv : List (String × CfgVal)) : String :=
  String.intercalate ", " (cv.map (fun kv => kv.1 ++ ": " ++ reprCfgVal kv.2))

/-- The cache key of `PwPdModel.make_serializer`:
`model.__name__ + cls.__name__ + (letter_hash(repr(config_values)) if
config_values else '')`.  The Python per-process string hash is an explicit
parameter `pyHash`. -/
def cacheKey (pyHash : String → Int) (m : PwModel) (clsName : String)
    (cv : List (String × CfgVal)) : String :=
  m.name ++ clsName ++ (if cv.isEmpty then "" else letter_hash (pyHash (reprConfig cv)))

/-- The class-level `PwPdModel.__CACHE` together with the schema types
created so far: a schema is identified by its creation index, and
`schemas` records which model, family name and overrides each one was
synthesized from. -/
structure CacheState where
  cache : List (String × Nat)
  schemas : List (PwModel × String × List (String × CfgVal))
deriving DecidableEq

deriving instance DecidableEq for Except

/-- The empty cache at interpreter start. -/
def emptyState : CacheState := ⟨[], []⟩

/-- The error message of the `pw_model` override check. -/
def pwModelError : String :=
  "`pw_model` can not be overriden with config values, use `model` argument"

/-- The classmethod `PwPdModel.make_serializer`: compute the cache key;
answer from the cache when the key is present; otherwise walk the
overrides (raising on a `pw_model` key before anything is cached) and
create and cache a fresh schema type. -/
def makeSerializer (pyHash : String → Int) (m : PwModel) (clsName : String)
    (cv : List (String × CfgVal)) (st : CacheState) : Except String (Nat × CacheState) :=
  match getVal st.cache (cacheKey pyHash m clsName cv) with
  | some i => .ok (i, st)
  | none =>
    if cv.any (fun kv => kv.1 == "pw_model") then
      .error pwModelError
    else
      .ok (st.schemas.length,
           ⟨st.cache ++ [(cacheKey pyHash m clsName cv, st.schemas.length)],
            st.schemas ++ [(m, clsName, cv)]⟩)

/-- A validated request body as pydantic hands it to the view: all field
values after validation, and the subset of fields that were explicitly set
(what `.dict(exclude_unset=True)` returns). -/
structure ValidatedBody where
  vals : List (String × PyVal)
  setFields : List (String × PyVal)
deriving DecidableEq

/-- The call `self._obj_data.dict(exclude_unset=partial)` in
`BaseWriteFastAPIView.update`: with `exclude_unset` only the explicitly
set fields are returned, otherwise every validated field. -/
def dictOf (b : ValidatedBody) (excludeUnset : Bool) : List (String × PyVal) :=
  if excludeUnset then b.setFields else b.vals

/-- The body of `BaseWriteFastAPIView.update` applied to the matched record:
`setattr(instance, name, value)` for every item of the dict, then
`instance.save()` persists the record as mutated in memory. -/
def updateInstance (inst : List (String × PyVal)) (b : ValidatedBody)
    (part : Bool) : List (String × PyVal) :=
  updAssoc inst (dictOf b part)

/-- An incoming HTTP request as the exception handler receives it (only
opaque data: the handler ignores it). -/
structure Request where
  path : String
  pathParams : List (String × String)
deriving DecidableEq

/-- The peewee `DoesNotExist` exception, carrying which model's lookup
failed (the handler ignores it). -/
structure DoesNotExist where
  modelName : String
deriving DecidableEq

/-- The call method of `NotFoundExceptionHandler`: a JSON response with
status 404 and the fixed body. -/
def notFoundHandlerCall (_req : Request) (_exc : DoesNotExist) :
    Nat × List (String × String) :=
  (404, [("msg", "Instance not found"), ("type", "not_found")])

/-- Modelled from the spec: the external validation collaborator's
required/default rule for one declared attribute (pydantic is out of
scope of the repository).  A value provided in the body is taken; an
absent value falls back to the attribute's assigned default; with no
default, an optional annotation yields null and a non-optional one is a
missing-value validation error. -/
def validateAttr (attrDefault : Option PyVal) (ann : PdType)
    (provided : Option PyVal) : Except String (Option PyVal) :=
  match provided with
  | some v => .ok (some v)
  | none =>
    match attrDefault with
    | some v => .ok (some v)
    | none => if derivedOptional ann then .ok none else .error "value_error.missing"

/-- An auto-increment primary key, as `id = pw.AutoField()` in the tests. -/
def idField : PwField :=
  ⟨"id", .AutoField, true, false, none, none⟩

/-- A non-null text field, as `text = pw.TextField()`. -/
def textField : PwField :=
  ⟨"text", .TextField, false, false, none, none⟩

/-- A nullable integer field, as `number = pw.IntegerField(null=True)`. -/
def numberField : PwField :=
  ⟨"number", .IntegerField, false, true, none, none⟩

/-- A non-null boolean field with a default, as
`is_test = pw.BooleanField(default=True)`. -/
def isTestField : PwField :=
  ⟨"is_test", .BooleanField, false, false, some (.bool true), none⟩

/-- A non-null foreign key, as
`related = pw.ForeignKeyField(ParentTestModel, backref='test_models')`
(the referenced column is the parent's `AutoField` primary key). -/
def relatedField : PwField :=
  ⟨"related", .ForeignKeyField, false, false, none, some ("ParentTestModel", .AutoField)⟩

/-- A nullable foreign key to the same parent model. -/
def relatedNullable : PwField :=
  ⟨"related", .ForeignKeyField, false, true, none, some ("ParentTestModel", .AutoField)⟩

/-- The `TestModel` of the repository's tests: fields `id`, `text`,
`number`, `is_test`, `related`, and backref `childs` from
`ChildTestModel`. -/
def testModel : PwModel :=
  ⟨"TestModel", [idField, textField, numberField, isTestField, relatedField],
   [("childs", "ChildTestModel")]⟩

/-- A model with a nullable foreign key, used to probe the translator's
nested-foreign-key branch. -/
def nullableFkModel : PwModel :=
  ⟨"NullableFkModel", [idField, relatedNullable], []⟩

/-- A model named `SameName` with one field. -/
def nameClashA : PwModel :=
  ⟨"SameName", [idField], []⟩

/-- A different model also named `SameName`, with more fields. -/
def nameClashB : PwModel :=
  ⟨"SameName", [idField, textField], []⟩

/-- A concrete stand-in for the Python per-process string hash. -/
def pyHash0 : String → Int := fun _ => 0

/-- An empty class body: no manual values, no manual annotations. -/
def emptyNS : NS := ⟨[], []⟩

/-- A two-field model used to probe the eligibility rule. -/
def simpleModel : PwModel :=
  ⟨"SimpleModel", [idField, textField], []⟩

/-- A policy declaring an explicit `pw_fields = {'id'}` list, as in the
repository's test `make_serializer(TestModel, pw_fields={'id'})`. -/
def explicitFieldsPolicy : Policy :=
  { pw_fields := some ["id"] }

/-- A class body manually declaring the attribute `text`, both as a value
and as an annotation. -/
def manualNS : NS :=
  ⟨[("text", .str "manual")], [("text", PdType.scalar .str)]⟩

/-- A stored record as fetched by primary key before an update. -/
def storedRecord : List (String × PyVal) :=
  [("id", .int 1), ("text", .str "old"), ("number", .int 3), ("is_test", .bool true)]

/-- A validated partial-update body that explicitly set only `number`. -/
def patchBody : ValidatedBody :=
  ⟨[("text", .str "old"), ("number", .int 7), ("is_test", .bool true)],
   [("number", .int 7)]⟩

/-- Ad hoc overrides containing the forbidden `pw_model` key. -/
def cvPwModel : List (String × CfgVal) :=
  [("pw_model", .model "ParentTestModel")]

/-- The cache state after synthesizing the default schema for `testModel`
from the empty cache. -/
def c4FirstState : CacheState :=
  ⟨[("TestModelPwPdModel", 0)], [(testModel, "PwPdModel", [])]⟩

/-- The cache state after synthesizing the default schema for `nameClashA`
from the empty cache. -/
def c5StateA : CacheState :=
  ⟨[("SameNamePwPdModel", 0)], [(nameClashA, "PwPdModel", [])]⟩

end Fastapiwee

namespace Fastapiwee

/-- Membership of a name in a list coincides with the Boolean check. -/
theorem hasName_iff (l : List String) (x : String) : hasName l x = true ↔ x ∈ l := by
  simp [hasName, List.any_eq_true, beq_iff_eq]

/-- Looking up the key just assigned yields the assigned value. -/
theorem getVal_setKey_self {α : Type} : ∀ (d : List (String × α)) (k : String) (v : α),
    getVal (setKey d k v) k = some v
  | [], k, v => by simp [setKey, getVal]
  | (k2, v2) :: rest, k, v => by
    by_cases h : k2 = k
    · simp [setKey, getVal, h]
    · simp [setKey, getVal, h, getVal_setKey_self rest k v]

/-- Assigning one key leaves lookups of other keys unchanged. -/
theorem getVal_setKey_ne {α : Type} : ∀ (d : List (String × α)) (k k3 : String) (v : α),
    k3 ≠ k → getVal (setKey d k v) k3 = getVal d k3
  | [], k, k3, v, h => by simp [setKey, getVal, Ne.symm h]
  | (k2, v2) :: rest, k, k3, v, h => by
    by_cases he : k2 = k
    · simp [setKey, getVal, he, Ne.symm h]
    · simp only [setKey, if_neg he]
      by_cases he3 : k2 = k3
      · simp [getVal, he3]
      · simp [getVal, he3, getVal_setKey_ne rest k k3 v h]

/-- A key absent from the key list looks up to nothing. -/
theorem getVal_eq_none {α : Type} : ∀ (l : List (String × α)) (k : String),
    k ∉ l.map Prod.fst → getVal l k = none
  | [], _, _ => rfl
  | (k2, v) :: rest, k, h => by
    have h1 : k2 ≠ k := by
      intro e
      exact h (by simp [e])
    have h2 : k ∉ rest.map Prod.fst := by
      intro hm
      exact h (by simp [hm])
    simp [getVal, h1, getVal_eq_none rest k h2]

/-- Lookup in an appended list falls through when the front misses. -/
theorem getVal_append {α : Type} : ∀ (a b : List (String × α)) (k : String),
    getVal a k = none → getVal (a ++ b) k = getVal b k
  | [], b, k, _ => rfl
  | (k2, v) :: rest, b, k, h => by
    by_cases he : k2 = k
    · simp [getVal, he] at h
    · simp only [getVal, if_neg he] at h
      simp only [List.cons_append, getVal, if_neg he]
      exact getVal_append rest b k h

/-- Dict update does not touch keys absent from the update. -/
theorem getVal_updAssoc_notMem {α : Type} : ∀ (u d : List (String × α)) (k : String),
    k ∉ u.map Prod.fst → getVal (updAssoc d u) k = getVal d k
  | [], _, _, _ => rfl
  | (k2, v) :: rest, d, k, h => by
    have h1 : k2 ≠ k := by
      intro e
      exact h (by simp [e])
    have h2 : k ∉ rest.map Prod.fst := by
      intro hm
      exact h (by simp [hm])
    rw [updAssoc, getVal_updAssoc_notMem rest (setKey d k2 v) k h2]
    exact getVal_setKey_ne d k2 k v (Ne.symm h1)

/-- Dict update with unique keys resolves keys of the update to the
update's values. -/
theorem getVal_updAssoc_mem {α : Type} : ∀ (u d : List (String × α)) (k : String),
    (u.map Prod.fst).Nodup → k ∈ u.map Prod.fst →
    getVal (updAssoc d u) k = getVal u k
  | [], _, k, _, h => absurd h (by simp)
  | (k2, v) :: rest, d, k, hnd, hm => by
    rw [List.map_cons] at hnd
    obtain ⟨hno, hnd2⟩ := List.nodup_cons.mp hnd
    rw [updAssoc]
    by_cases he : k2 = k
    · subst he
      rw [getVal_updAssoc_notMem rest (setKey d k2 v) k2 hno, getVal_setKey_self]
      simp [getVal]
    · have hk : k ∈ rest.map Prod.fst := by
        rw [List.map_cons] at hm
        rcases List.mem_cons.mp hm with h | h
        · exact absurd h.symm he
        · exact h
      rw [getVal_updAssoc_mem rest (setKey d k2 v) k hnd2 hk]
      simp [getVal, he]

/-- With unique keys, a binding present in the list is what lookup finds. -/
theorem getVal_of_mem_nodup {α : Type} : ∀ (l : List (String × α)) (k : String) (v : α),
    (l.map Prod.fst).Nodup → (k, v) ∈ l → getVal l k = some v
  | [], _, _, _, hm => absurd hm (by simp)
  | (k2, v2) :: rest, k, v, hnd, hm => by
    rw [List.map_cons] at hnd
    obtain ⟨hno, hnd2⟩ := List.nodup_cons.mp hnd
    rcases List.mem_cons.mp hm with he | ht
    · cases he
      simp [getVal]
    · have hk2 : k2 ≠ k := by
        intro e
        subst e
        exact hno (by simpa using List.mem_map_of_mem Prod.fst ht)
      simp only [getVal, if_neg hk2]
      exact getVal_of_mem_nodup rest k v hnd2 ht

/-- With unique entry names, the namespace value produced for an entry with
a non-null default is exactly that default. -/
theorem getVal_valsOf : ∀ (l : List SynthEntry) (e : SynthEntry) (v : PyVal),
    (l.map SynthEntry.name).Nodup → e ∈ l → e.dflt = some v →
    getVal (valsOf l) e.name = some v
  | [], _, _, _, hm, _ => absurd hm (by simp)
  | a :: t, e, v, hnd, hm, hd => by
    rw [List.map_cons] at hnd
    obtain ⟨hno, hnd2⟩ := List.nodup_cons.mp hnd
    rcases List.mem_cons.mp hm with he | ht
    · subst he
      simp [valsOf, hd, getVal]
    · have hne : a.name ≠ e.name := by
        intro hcontra
        exact hno (hcontra ▸ List.mem_map_of_mem SynthEntry.name ht)
      cases hda : a.dflt with
      | none =>
        simpa [valsOf, hda] using getVal_valsOf t e v hnd2 ht hd
      | some w =>
        simp only [valsOf, List.filterMap_cons, hda, Option.map_some]
        simp only [getVal, if_neg hne]
        simpa [valsOf] using getVal_valsOf t e v hnd2 ht hd

/-- C1 counterexample: for a nullable foreign key translated with
foreign-key nesting enabled and the all-optional flag set, the claim says
the derived attribute is optional (the field is neither primary key nor
non-nullable, and all-optional is set besides); the code's
`_FieldTranslator.pd_type` instead returns the related model's derived
schema immediately, skipping the optional wrapping, so the attribute is
not marked optional. -/
theorem c1_counterexample :
    isRequired relatedNullable = false ∧
    pdTypeOf relatedNullable true true = PdType.nested "ParentTestModel" ∧
    derivedOptional (pdTypeOf relatedNullable true true)
      ≠ (true || !(isRequired relatedNullable)) := by
  decide

/-- C1 (amended): for every field that is not a nested foreign key (it has
no foreign-key relation, or foreign-key nesting is disabled), the derived
type is wrapped optional exactly when the all-optional flag is set or the
field is neither primary key nor non-nullable; equivalently, it is marked
required iff it is primary key or non-nullable and all-optional is unset.
A foreign key under nesting is always typed as the related model's derived
schema, never optional-wrapped. -/
theorem c1_required_amended (f : PwField) (nestFk allOptional : Bool)
    (h : f.fk = none ∨ nestFk = false) :
    derivedOptional (pdTypeOf f nestFk allOptional) = (allOptional || !(isRequired f)) := by
  rcases h with h | h
  · cases hr : isRequired f <;> cases allOptional <;>
      simp [pdTypeOf, h, hr, derivedOptional]
  · subst h
    rcases hfk : f.fk with _ | ⟨rm, rc⟩ <;>
      cases hr : isRequired f <;> cases allOptional <;>
        simp [pdTypeOf, hfk, hr, derivedOptional]

/-- C1 witness: a nullable plain integer field under no all-optional flag
derives as optional, per the amended rule. -/
theorem c1_witness :
    (numberField.fk = none ∨ (false : Bool) = false) ∧
    derivedOptional (pdTypeOf numberField false false) = (false || !(isRequired numberField)) :=
  ⟨Or.inl rfl, c1_required_amended numberField false false (Or.inl rfl)⟩

/-- C2 counterexample: with an explicit `pw_fields = ['id']` on a model with
fields `id` and `text`, the spec's rule (union of the declared list with
the default all-fields set, minus exclusions) leaves `text` eligible, but
the code's `allowed_fields` (the declared list replaces the default set)
does not. -/
theorem c2_counterexample :
    hasName (allowedFieldsSpecVersion simpleModel explicitFieldsPolicy) "text" = true ∧
    hasName (allowedFields simpleModel explicitFieldsPolicy) "text" = false := by
  decide

/-- C2 (amended): the set of field names eligible to appear on the derived
schema is the policy's declared field list when one is declared and
otherwise the default set of all model fields plus reverse-relation
names, minus the excluded names; an explicit field list replaces the
default set rather than extending it. -/
theorem c2_allowed_amended (m : PwModel) (p : Policy) (n : String) :
    n ∈ allowedFields m p ↔
      (n ∈ p.pw_fields.getD (defaultFieldNames m) ∧ n ∉ p.pw_exclude) := by
  simp only [allowedFields, List.mem_filter, hasName, List.any_eq_true, beq_iff_eq,
    Bool.not_eq_true', List.any_eq_false]
  refine and_congr_right fun _ => ⟨fun h hn => h n hn rfl, fun h x hx he => h (he ▸ hx)⟩

/-- C3: a surviving foreign-key field synthesizes, when nesting is
disabled, an attribute renamed `<relation>_id` whose type (optional
wrapper aside) is the scalar translated from the referenced column's
declared class; when nesting is enabled, an attribute keeping the
relation name whose type is the related model's derived schema.  In both
cases the entry is part of the synthesized attribute list. -/
theorem c3_fk_translation (m : PwModel) (p : Policy) (ns : NS) (f : PwField)
    (rm : String) (rc : PwFieldClass)
    (hf : f ∈ m.fields) (hs : survives p (allowedFields m p) ns f = true)
    (hfk : f.fk = some (rm, rc)) :
    (p.pw_nest_fk = false →
       (mkEntry p f).name = f.name ++ "_id" ∧
       stripOpt ((mkEntry p f).ann) = PdType.scalar (scalarOf rc) ∧
       mkEntry p f ∈ synthEntries m p ns) ∧
    (p.pw_nest_fk = true →
       (mkEntry p f).name = f.name ∧
       (mkEntry p f).ann = PdType.nested rm ∧
       mkEntry p f ∈ synthEntries m p ns) := by
  have hmem : mkEntry p f ∈ synthEntries m p ns :=
    List.mem_append_left _
      (List.mem_map_of_mem (mkEntry p) (List.mem_filter.mpr ⟨hf, hs⟩))
  constructor
  · intro hn
    refine ⟨?_, ?_, hmem⟩
    · simp [mkEntry, outNameOf, hfk, hn]
    · simp only [mkEntry, pdTypeOf, hfk, hn]
      cases hc : (!(isRequired f) || p.pw_all_optional) <;> simp [stripOpt]
  · intro hn
    refine ⟨?_, ?_, hmem⟩
    · simp [mkEntry, outNameOf, hn]
    · simp [mkEntry, pdTypeOf, hfk, hn]

/-- C3 witness: the non-null foreign key `related` of the test model under
the write policy (nesting disabled) becomes `related_id`, typed by the
scalar of the parent's `AutoField` primary key (int, through the mro
walk). -/
theorem c3_witness :
    (relatedField ∈ testModel.fields ∧
     survives writePolicy (allowedFields testModel writePolicy) emptyNS relatedField = true ∧
     relatedField.fk = some ("ParentTestModel", PwFieldClass.AutoField) ∧
     writePolicy.pw_nest_fk = false) ∧
    ((mkEntry writePolicy relatedField).name = relatedField.name ++ "_id" ∧
     stripOpt ((mkEntry writePolicy relatedField).ann)
       = PdType.scalar (scalarOf PwFieldClass.AutoField) ∧
     mkEntry writePolicy relatedField ∈ synthEntries testModel writePolicy emptyNS) :=
  ⟨⟨by decide, by decide, by decide, by decide⟩,
   (c3_fk_translation testModel writePolicy emptyNS relatedField "ParentTestModel"
      PwFieldClass.AutoField (by decide) (by decide) (by decide)).1 rfl⟩

/-- C4: when `make_serializer` returns a schema, calling it again with the
same model and overrides returns the very same schema identifier and
leaves the cache state untouched: the second call is answered from the
cache without synthesizing a new type. -/
theorem c4_memoized (pyHash : String → Int) (m : PwModel) (clsName : String)
    (cv : List (String × CfgVal)) (st : CacheState) (i : Nat) (s1 : CacheState)
    (h : makeSerializer pyHash m clsName cv st = .ok (i, s1)) :
    makeSerializer pyHash m clsName cv s1 = .ok (i, s1) := by
  unfold makeSerializer at h ⊢
  cases hl : getVal st.cache (cacheKey pyHash m clsName cv) with
  | some j =>
    rw [hl] at h
    simp only [Except.ok.injEq, Prod.mk.injEq] at h
    obtain ⟨hi, hs⟩ := h
    subst hi
    subst hs
    rw [hl]
  | none =>
    rw [hl] at h
    cases hc : cv.any (fun kv => kv.1 == "pw_model") with
    | true => simp [hc] at h
    | false =>
      simp only [hc, Bool.false_eq_true, if_false, Except.ok.injEq, Prod.mk.injEq] at h
      obtain ⟨hi, hs⟩ := h
      subst hi
      subst hs
      have : getVal (st.cache ++ [(cacheKey pyHash m clsName cv, st.schemas.length)])
          (cacheKey pyHash m clsName cv) = some st.schemas.length := by
        rw [getVal_append st.cache _ _ hl]
        simp [getVal]
      rw [this]

/-- C4 witness: synthesizing the default schema of the test model from the
empty cache and asking again yields the same schema id and state. -/
theorem c4_witness :
    makeSerializer pyHash0 testModel "PwPdModel" [] emptyState = .ok (0, c4FirstState) ∧
    makeSerializer pyHash0 testModel "PwPdModel" [] c4FirstState = .ok (0, c4FirstState) :=
  ⟨by decide,
   c4_memoized pyHash0 testModel "PwPdModel" [] emptyState 0 c4FirstState (by decide)⟩

/-- C5 counterexample: the cache key is built from `model.__name__`, not
the model's identity.  Two distinct models that share the class name
`SameName` produce the same key, and after the first one's schema is
cached, `make_serializer` on the second model returns the first model's
schema (the state still records only a schema synthesized from
`nameClashA`), refuting "two distinct models never share a cache
entry". -/
theorem c5_counterexample :
    nameClashA ≠ nameClashB ∧
    cacheKey pyHash0 nameClashA "PwPdModel" [] = cacheKey pyHash0 nameClashB "PwPdModel" [] ∧
    makeSerializer pyHash0 nameClashA "PwPdModel" [] emptyState = .ok (0, c5StateA) ∧
    makeSerializer pyHash0 nameClashB "PwPdModel" [] c5StateA = .ok (0, c5StateA) := by
  decide

/-- C5 (amended): the cache key is composed of the model's class name (not
its identity), the schema-family class name, and - only when ad hoc
overrides are supplied - the letter-hash of the overrides' textual
representation under the process string hash; hence any two models with
equal class names produce the same key for the same family and overrides,
and the same overrides always produce the same key component. -/
theorem c5_key_amended (pyHash : String → Int) (clsName : String)
    (cv : List (String × CfgVal)) (m1 m2 : PwModel) (h : m1.name = m2.name) :
    cacheKey pyHash m1 clsName cv = cacheKey pyHash m2 clsName cv ∧
    (cv = [] → cacheKey pyHash m1 clsName cv = m1.name ++ clsName) ∧
    (cv ≠ [] → cacheKey pyHash m1 clsName cv
        = m1.name ++ clsName ++ letter_hash (pyHash (reprConfig cv))) := by
  refine ⟨by simp [cacheKey, h], ?_, ?_⟩
  · intro hcv
    subst hcv
    simp [cacheKey]
  · intro hcv
    have : cv.isEmpty = false := by
      cases cv with
      | nil => exact absurd rfl hcv
      | cons a t => rfl
    simp [cacheKey, this]

/-- C5 witness: the two same-named distinct models of the counterexample
context indeed get equal keys for the write family, by the amended key
composition. -/
theorem c5_witness :
    nameClashA.name = nameClashB.name ∧
    cacheKey pyHash0 nameClashA "PwPdWriteModel" []
      = cacheKey pyHash0 nameClashB "PwPdWriteModel" [] :=
  ⟨rfl, (c5_key_amended pyHash0 "PwPdWriteModel" [] nameClashA nameClashB rfl).1⟩

/-- C6: any attribute name manually declared on the schema class body keeps
its manual annotation and manual value in the final namespace (the
`deep_update` merge lets manual declarations win on collision), and every
model field whose name is manually declared is skipped by the collection
loop, so it is never re-derived from the field descriptor. -/
theorem c6_manual_wins (m : PwModel) (p : Policy) (ns : NS) (nm : String)
    (hndA : (ns.anns.map Prod.fst).Nodup) (hndV : (ns.vals.map Prod.fst).Nodup) :
    (nm ∈ ns.anns.map Prod.fst → getVal (finalAnns m p ns) nm = getVal ns.anns nm) ∧
    (nm ∈ ns.vals.map Prod.fst → getVal (finalVals m p ns) nm = getVal ns.vals nm) ∧
    (∀ f : PwField, f.name ∈ nsNames ns →
      survives p (allowedFields m p) ns f = false) := by
  refine ⟨fun hm => getVal_updAssoc_mem ns.anns _ nm hndA hm,
          fun hm => getVal_updAssoc_mem ns.vals _ nm hndV hm, ?_⟩
  intro f hf
  have hb : hasName (nsNames ns) f.name = true := (hasName_iff _ _).mpr hf
  simp [survives, hb]

/-- C6 witness: with `text` manually annotated and valued on the class body
of a schema over the test model, the final namespace carries the manual
annotation for `text`. -/
theorem c6_witness :
    ((manualNS.anns.map Prod.fst).Nodup ∧ (manualNS.vals.map Prod.fst).Nodup ∧
     "text" ∈ manualNS.anns.map Prod.fst) ∧
    getVal (finalAnns testModel defaultPolicy manualNS) "text" = getVal manualNS.anns "text" :=
  ⟨⟨by decide, by decide, by decide⟩,
   (c6_manual_wins testModel defaultPolicy manualNS "text" (by decide) (by decide)).1
     (by decide)⟩

/-- C7: a partial update applies exactly the explicitly set fields of the
validated body to the matched record: a field absent from the set-fields
dict keeps its stored value after the save, and a field present in it
ends up with the body's value. -/
theorem c7_part_update (inst : List (String × PyVal)) (b : ValidatedBody) (nm : String)
    (hnd : (b.setFields.map Prod.fst).Nodup) :
    (nm ∉ b.setFields.map Prod.fst →
       getVal (updateInstance inst b true) nm = getVal inst nm) ∧
    (∀ v : PyVal, (nm, v) ∈ b.setFields →
       getVal (updateInstance inst b true) nm = some v) := by
  constructor
  · intro hm
    simpa [updateInstance, dictOf] using getVal_updAssoc_notMem b.setFields inst nm hm
  · intro v hv
    have h1 : nm ∈ b.setFields.map Prod.fst := List.mem_map_of_mem Prod.fst hv
    have h2 := getVal_updAssoc_mem b.setFields inst nm hnd h1
    have h3 := getVal_of_mem_nodup b.setFields nm v hnd hv
    simpa [updateInstance, dictOf] using h2.trans h3

/-- C7 witness: patching a stored record with a body that explicitly set
only `number = 7` leaves `text` at its stored value and sets `number` to
7. -/
theorem c7_witness :
    ((patchBody.setFields.map Prod.fst).Nodup ∧
     "text" ∉ patchBody.setFields.map Prod.fst ∧
     ("number", PyVal.int 7) ∈ patchBody.setFields) ∧
    getVal (updateInstance storedRecord patchBody true) "text" = getVal storedRecord "text" ∧
    getVal (updateInstance storedRecord patchBody true) "number" = some (.int 7) :=
  ⟨⟨by decide, by decide, by decide⟩,
   (c7_part_update storedRecord patchBody "text" (by decide)).1 (by decide),
   (c7_part_update storedRecord patchBody "number" (by decide)).2 (.int 7) (by decide)⟩

/-- C8: when the overrides contain the `pw_model` key and the computed key
is not already cached (as on any fresh combination), `make_serializer`
fails at call time with the dedicated `ValueError` message and neither
returns nor caches a schema (the error branch carries no state). -/
theorem c8_pw_model_error (pyHash : String → Int) (m : PwModel) (clsName : String)
    (cv : List (String × CfgVal)) (st : CacheState)
    (hkey : getVal st.cache (cacheKey pyHash m clsName cv) = none)
    (hpm : cv.any (fun kv => kv.1 == "pw_model") = true) :
    makeSerializer pyHash m clsName cv st = .error pwModelError := by
  unfold makeSerializer
  rw [hkey, if_pos hpm]

/-- C8 witness: overriding `pw_model` on the first call for the test model
errors out against the empty cache. -/
theorem c8_witness :
    (getVal emptyState.cache (cacheKey pyHash0 testModel "PwPdModel" cvPwModel) = none ∧
     cvPwModel.any (fun kv => kv.1 == "pw_model") = true) ∧
    makeSerializer pyHash0 testModel "PwPdModel" cvPwModel emptyState = .error pwModelError :=
  ⟨⟨rfl, by decide⟩,
   c8_pw_model_error pyHash0 testModel "PwPdModel" cvPwModel emptyState rfl (by decide)⟩

/-- C9: the registered not-found handler answers every request and every
`DoesNotExist` exception, whatever model it came from, with status 404
and exactly the body entries `msg = "Instance not found"` and
`type = "not_found"`. -/
theorem c9_not_found_response (req : Request) (exc : DoesNotExist) :
    notFoundHandlerCall req exc
      = (404, [("msg", "Instance not found"), ("type", "not_found")]) := rfl

/-- C10: a surviving model field with a non-`None` default whose synthesized
name is not manually declared gets that default assigned in the final
namespace, and validating a body that omits the attribute succeeds and
yields the default - even when the field is non-nullable. -/
theorem c10_default_value (m : PwModel) (p : Policy) (ns : NS) (f : PwField) (v : PyVal)
    (hf : f ∈ m.fields) (hs : survives p (allowedFields m p) ns f = true)
    (hd : f.dflt = some v)
    (hnd : ((synthEntries m p ns).map SynthEntry.name).Nodup)
    (hman : outNameOf p f ∉ ns.vals.map Prod.fst) :
    getVal (finalVals m p ns) (outNameOf p f) = some v ∧
    validateAttr (getVal (finalVals m p ns) (outNameOf p f))
      (pdTypeOf f p.pw_nest_fk p.pw_all_optional) none = .ok (some v) := by
  have hmem : mkEntry p f ∈ synthEntries m p ns :=
    List.mem_append_left _
      (List.mem_map_of_mem (mkEntry p) (List.mem_filter.mpr ⟨hf, hs⟩))
  have h1 : getVal (synthVals m p ns) (outNameOf p f) = some v := by
    have := getVal_valsOf (synthEntries m p ns) (mkEntry p f) v hnd hmem
      (by simpa [mkEntry] using hd)
    simpa [synthVals, mkEntry] using this
  have h2 : getVal (finalVals m p ns) (outNameOf p f) = some v := by
    rw [finalVals, getVal_updAssoc_notMem ns.vals _ _ hman]
    exact h1
  refine ⟨h2, ?_⟩
  rw [h2]
  rfl

/-- C10 witness: the non-nullable `is_test` field with default `True`, under
the write policy, ends with the default assigned in the namespace, and a
body omitting it validates to `True`. -/
theorem c10_witness :
    (isTestField ∈ testModel.fields ∧
     survives writePolicy (allowedFields testModel writePolicy) emptyNS isTestField = true ∧
     isTestField.dflt = some (.bool true) ∧
     ((synthEntries testModel writePolicy emptyNS).map SynthEntry.name).Nodup ∧
     outNameOf writePolicy isTestField ∉ emptyNS.vals.map Prod.fst) ∧
    getVal (finalVals testModel writePolicy emptyNS) (outNameOf writePolicy isTestField)
      = some (.bool true) ∧
    validateAttr
      (getVal (finalVals testModel writePolicy emptyNS) (outNameOf writePolicy isTestField))
      (pdTypeOf isTestField writePolicy.pw_nest_fk writePolicy.pw_all_optional) none
      = .ok (some (.bool true)) :=
  ⟨⟨by decide, by decide, by decide, by decide, by decide⟩,
   (c10_default_value testModel writePolicy emptyNS isTestField (.bool true)
      (by decide) (by decide) (by decide) (by decide) (by decide)).1,
   (c10_default_value testModel writePolicy emptyNS isTestField (.bool true)
      (by decide) (by decide) (by decide) (by decide) (by decide)).2⟩

end Fastapiwee
